import Mathlib

/-!
Verification of the `snowflake` sandboxed command executor and the `sekka`
script backend against their natural-language specification.

The embedding follows the two source files:

* `src/snowflake/src/action/perform/run_command.cpp`: the C function
  `snowflake_perform_run_command_gist`.  Syscall outcomes are supplied by an
  oracle environment (`ParentEnv` for the parent process, `ChildEnv` for the
  child branch after `clone3` returned 0).  The observable side effects
  (`close`, `read`, `ppoll`, `kill`, `waitpid`) are recorded in an event
  trace, with the `scope_exit` guard destructors expanded at every return
  point in reverse construction order, exactly as C++ runs them
  (`pipefd0_guard`, `pipefd1_guard`, `pidfd_guard`, `child_guard`).

* `src/sekka/src/backend/backend.cpp`: `SekkaBackend::run_js` and the
  `sekka_backend_run_js` wrapper, with the three fallible V8 stages
  (UTF-8 string wrapping, compilation, evaluation) supplied by an oracle.
-/

/-- Status returned to the caller, mirroring `enum class status` in
`run_command.cpp`. -/
inductive Status where
  | childTerminated
  | failurePipe2
  | failureClone3
  | failureRead
  | failurePreExecve
  | failurePpoll
  | failureTimeout
  | failureWaitpid
deriving DecidableEq

/-- Observable parent-side effects of `snowflake_perform_run_command_gist`,
in program order.  `close` covers both `run_now` guard releases and guard
destructors; `kill` and `waitGuard` are the body of `child_guard`
(`kill(pid, SIGKILL)` followed by `waitpid(pid, nullptr, 0)`); `waitStatus`
is the final `waitpid(pid, &wstatus, 0)` with its return value. -/
inductive Ev where
  | close (fd : Int)
  | readE (fd : Int) (nread : Int)
  | ppollE (fd : Int) (result : Int)
  | kill (pid : Int)
  | waitGuard (pid : Int)
  | waitStatus (pid : Int) (ret : Int)
deriving DecidableEq

/-- Oracle for the syscall results observed by the parent process in one
invocation of `snowflake_perform_run_command_gist`.  `pipe2Res` is
`some (pipefd[0], pipefd[1])` on success, `none` when `pipe2` returns -1;
`clone3Res` is `some (pid, pidfd)` on success (`pid` is the child pid as
seen by the parent, hence nonzero), `none` when `clone3` returns -1;
`readRes` is the return value of `read(pipefd[0], errbuf, errlen)`;
`ppollRes` the return value of `ppoll`; `waitpidRet` the return value of
`waitpid(pid, &wstatus, 0)` and `waitpidStatusWord` the wait-status word it
stores through `&wstatus` when it returns `pid`. -/
structure ParentEnv where
  pipe2Res : Option (Int × Int)
  clone3Res : Option (Int × Int)
  readRes : Int
  ppollRes : Int
  waitpidRet : Int
  waitpidStatusWord : Int
deriving DecidableEq

/-- Result of one parent-side run: the returned status, the final value of
the caller's `wstatus` variable, and the trace of observable effects. -/
structure RunOutcome where
  status : Status
  wstatus : Int
  events : List Ev
deriving DecidableEq

/-- Shallow embedding of the parent-process control flow of
`snowflake_perform_run_command_gist`.  Each return path lists its events in
program order; the guard destructors that fire at that `return` statement
are expanded inline, in reverse construction order
(`child_guard`, `pidfd_guard`, `pipefd1_guard`, `pipefd0_guard`), with
guards already released by `run_now` (or dismissed by `skip`) omitted.
The test cascade mirrors the source: `nread == -1`, then `nread != 0`,
then `poll_result == -1`, then `poll_result == 0`, then
`waitpid(...) != pid`. -/
def runCommandGist (env : ParentEnv) (wstatus0 : Int) : RunOutcome :=
  match env.pipe2Res with
  | none =>
      -- pipe2 failed: nothing was opened, no guards exist yet.
      { status := Status.failurePipe2, wstatus := wstatus0, events := [] }
  | some (rfd, wfd) =>
    match env.clone3Res with
    | none =>
        -- clone3 failed: pipefd1_guard then pipefd0_guard fire.
        { status := Status.failureClone3, wstatus := wstatus0,
          events := [Ev.close wfd, Ev.close rfd] }
    | some (pid, pidfd) =>
        -- parent branch: pipefd1_guard.run_now(), then the single read.
        if env.readRes = -1 then
          { status := Status.failureRead, wstatus := wstatus0,
            events := [Ev.close wfd, Ev.readE rfd env.readRes,
                       Ev.kill pid, Ev.waitGuard pid,
                       Ev.close pidfd, Ev.close rfd] }
        else if env.readRes ≠ 0 then
          { status := Status.failurePreExecve, wstatus := wstatus0,
            events := [Ev.close wfd, Ev.readE rfd env.readRes,
                       Ev.kill pid, Ev.waitGuard pid,
                       Ev.close pidfd, Ev.close rfd] }
        else
          -- nread == 0: pipefd0_guard.run_now(), then ppoll on the pidfd.
          if env.ppollRes = -1 then
            { status := Status.failurePpoll, wstatus := wstatus0,
              events := [Ev.close wfd, Ev.readE rfd env.readRes, Ev.close rfd,
                         Ev.ppollE pidfd env.ppollRes,
                         Ev.kill pid, Ev.waitGuard pid, Ev.close pidfd] }
          else if env.ppollRes = 0 then
            { status := Status.failureTimeout, wstatus := wstatus0,
              events := [Ev.close wfd, Ev.readE rfd env.readRes, Ev.close rfd,
                         Ev.ppollE pidfd env.ppollRes,
                         Ev.kill pid, Ev.waitGuard pid, Ev.close pidfd] }
          else if env.waitpidRet = pid then
            -- waitpid stored the status word; child_guard.skip().
            { status := Status.childTerminated,
              wstatus := env.waitpidStatusWord,
              events := [Ev.close wfd, Ev.readE rfd env.readRes, Ev.close rfd,
                         Ev.ppollE pidfd env.ppollRes,
                         Ev.waitStatus pid env.waitpidRet, Ev.close pidfd] }
          else
            { status := Status.failureWaitpid, wstatus := wstatus0,
              events := [Ev.close wfd, Ev.readE rfd env.readRes, Ev.close rfd,
                         Ev.ppollE pidfd env.ppollRes,
                         Ev.waitStatus pid env.waitpidRet,
                         Ev.kill pid, Ev.waitGuard pid, Ev.close pidfd] }

/-- Number of occurrences of an event in a trace. -/
def countEv (e : Ev) : List Ev → Nat
  | [] => 0
  | x :: xs => (if x = e then 1 else 0) + countEv e xs

/-- Modelled from the spec: the `RunResult` record of §3.  The code that
packages the gist's status into this record (the Rust `perform_run_command`
wrapper that owns `error_bytes_written`) is not under `src/`; per the spec,
`error_bytes_written` is the length of the payload the child wrote into
`error_buffer`, which the parent obtained as the pipe read count, and it is
only meaningful when the kind is `FailurePreExecve`. -/
structure RunResult where
  kind : Status
  errorBytesWritten : Int
  waitStatus : Int
deriving DecidableEq

/-- Modelled from the spec: `run(RunRequest) → RunResult`, the wrapper that
runs the gist and records the pipe read count as `error_bytes_written` when
the status is `FailurePreExecve`. -/
def perform_run_command (env : ParentEnv) (wstatus0 : Int) : RunResult :=
  let out := runCommandGist env wstatus0
  { kind := out.status
    errorBytesWritten :=
      if out.status = Status.failurePreExecve then env.readRes else 0
    waitStatus := out.wstatus }

/-- Outcome of one fallible syscall in the child branch: `ok r` means the
call returned `r` (not -1); `err e` means it returned -1 with `errno = e`. -/
inductive SyscallRes where
  | ok (r : Int)
  | err (e : Int)
deriving DecidableEq

/-- Truth value of "the syscall did not return -1". -/
def SyscallRes.isOk : SyscallRes → Bool
  | SyscallRes.ok _ => true
  | SyscallRes.err _ => false

/-- Steps of the child branch of `snowflake_perform_run_command_gist`, in
program order.  `closePipeReadEnd` is `pipefd0_guard.run_now()`;
`openPath`/`writeData`/`closePath` are the body of the `write_file` lambda;
`dup2Log src tgt` is `dup2(log_file, tgt)`; `sendErr tag` is the
`send_error` lambda (two pipe writes followed by `_exit(1)`). -/
inductive CStep where
  | closePipeReadEnd
  | openPath (path : String)
  | writeData (path : String) (data : String)
  | closePath (path : String)
  | closeStdin
  | dup2Log (src tgt : Int)
  | execveStep (pathname : String)
  | sendErr (tag : String)
deriving DecidableEq

/-- How the child branch ended: `execed` means `execve` replaced the image;
`exited c` means `_exit(c)` ran. -/
inductive ChildExit where
  | execed
  | exited (code : Int)
deriving DecidableEq

/-- Result of the child branch: how it ended, the bytes it handed to
`write` on the pipe's write end (empty if `send_error` never ran), and the
trace of steps it executed. -/
structure ChildOutcome where
  exit : ChildExit
  payload : List Nat
  steps : List CStep
deriving DecidableEq

/-- Oracle for the syscall results observed by the child branch.  `uid`,
`gid`, `logFile` and `pathname` are the inputs the parent prepared
(`getuid()`, `getgid()`, the `log_file` argument, `execve_pathname`).
The `...CloseRes` and `closeReadRes`/`closeStdinRes` fields are the results
of the `close` calls, whose return values the source discards.
`execveRes = none` means `execve` succeeded (and never returned);
`execveRes = some e` means it returned -1 with `errno = e`. -/
structure ChildEnv where
  uid : Nat
  gid : Nat
  logFile : Int
  pathname : String
  closeReadRes : SyscallRes
  setgroupsOpenRes : SyscallRes
  setgroupsWriteRes : SyscallRes
  setgroupsCloseRes : SyscallRes
  uidMapOpenRes : SyscallRes
  uidMapWriteRes : SyscallRes
  uidMapCloseRes : SyscallRes
  gidMapOpenRes : SyscallRes
  gidMapWriteRes : SyscallRes
  gidMapCloseRes : SyscallRes
  closeStdinRes : SyscallRes
  dup2StdoutRes : SyscallRes
  dup2StderrRes : SyscallRes
  execveRes : Option Int
deriving DecidableEq

/-- The `uid_map` string the parent formats before `clone3`:
`"0 " + std::to_string(getuid()) + " 1"`. -/
def uidMapString (uid : Nat) : String := "0 " ++ toString uid ++ " 1"

/-- The `gid_map` string the parent formats before `clone3`:
`"0 " + std::to_string(getgid()) + " 1"`. -/
def gidMapString (gid : Nat) : String := "0 " ++ toString gid ++ " 1"

/-- Little-endian byte serialization of `std::int32_t errnum`, as laid out
in memory by `write(pipefd[1], &errnum, sizeof(errnum))` on the
little-endian Linux targets the source supports. -/
def int32LeBytes (e : Int) : List Nat :=
  let u : Nat := (e % 4294967296).toNat
  [u % 256, u / 256 % 256, u / 65536 % 256, u / 16777216 % 256]

/-- ASCII bytes of a tag string, as written by
`write(pipefd[1], source, std::strlen(source))` (no trailing NUL). -/
def asciiBytes (s : String) : List Nat := s.data.map Char.toNat

/-- Recover a signed 32-bit value from four little-endian bytes, the
decoding the spec prescribes for bytes 0..3 of `error_buffer`. -/
def decodeLeInt32 (bs : List Nat) : Int :=
  match bs with
  | [b0, b1, b2, b3] =>
      let u : Nat := b0 + 256 * b1 + 65536 * b2 + 16777216 * b3
      if u < 2147483648 then (u : Int) else (u : Int) - 4294967296
  | _ => 0

/-- The `send_error` lambda: captures `errno`, writes the 4-byte errno
followed by the tag onto the pipe's write end, and calls `_exit(1)`. -/
def sendError (e : Int) (tag : String) (steps : List CStep) : ChildOutcome :=
  { exit := ChildExit.exited 1
    payload := int32LeBytes e ++ asciiBytes tag
    steps := steps ++ [CStep.sendErr tag] }

/-- The `write_file` lambda: `open(pathname, O_CLOEXEC | O_WRONLY)`,
`send_error("open")` if that returned -1; `write(fd, ptr, len)`,
`send_error("write")` if that returned -1; then `close(fd)` with the
result discarded.  Returns the continued step trace on success, or the
finished `ChildOutcome` when `send_error` ran. -/
def write_file (path : String) (data : String)
    (openRes writeRes : SyscallRes) (steps : List CStep) :
    ChildOutcome ⊕ List CStep :=
  match openRes with
  | SyscallRes.err e =>
      Sum.inl (sendError e "open" (steps ++ [CStep.openPath path]))
  | SyscallRes.ok _ =>
    match writeRes with
    | SyscallRes.err e =>
        Sum.inl (sendError e "write"
          (steps ++ [CStep.openPath path, CStep.writeData path data]))
    | SyscallRes.ok _ =>
        Sum.inr (steps ++ [CStep.openPath path, CStep.writeData path data,
                           CStep.closePath path])

/-- Shallow embedding of the child branch (`pid == 0`) of
`snowflake_perform_run_command_gist`: close the pipe's read end
(`pipefd0_guard.run_now()`, result discarded), write `"deny\n"` to
`/proc/self/setgroups`, the prepared `uid_map` to `/proc/self/uid_map`,
the prepared `gid_map` to `/proc/self/gid_map`, close fd 0 (result
discarded), `dup2(log_file, 1)`, `dup2(log_file, 2)`, then
`execve(execve_pathname, execve_argv, execve_envp)` with
`send_error("execve")` if it returns. -/
def childRun (env : ChildEnv) : ChildOutcome :=
  match write_file "/proc/self/setgroups" "deny\n"
      env.setgroupsOpenRes env.setgroupsWriteRes [CStep.closePipeReadEnd] with
  | Sum.inl out => out
  | Sum.inr steps1 =>
  match write_file "/proc/self/uid_map" (uidMapString env.uid)
      env.uidMapOpenRes env.uidMapWriteRes steps1 with
  | Sum.inl out => out
  | Sum.inr steps2 =>
  match write_file "/proc/self/gid_map" (gidMapString env.gid)
      env.gidMapOpenRes env.gidMapWriteRes steps2 with
  | Sum.inl out => out
  | Sum.inr steps3 =>
  match env.dup2StdoutRes with
  | SyscallRes.err e =>
      sendError e "dup2"
        (steps3 ++ [CStep.closeStdin, CStep.dup2Log env.logFile 1])
  | SyscallRes.ok _ =>
  match env.dup2StderrRes with
  | SyscallRes.err e =>
      sendError e "dup2"
        (steps3 ++ [CStep.closeStdin, CStep.dup2Log env.logFile 1,
                    CStep.dup2Log env.logFile 2])
  | SyscallRes.ok _ =>
  match env.execveRes with
  | some e =>
      sendError e "execve"
        (steps3 ++ [CStep.closeStdin, CStep.dup2Log env.logFile 1,
                    CStep.dup2Log env.logFile 2,
                    CStep.execveStep env.pathname])
  | none =>
      { exit := ChildExit.execed
        payload := []
        steps := steps3 ++ [CStep.closeStdin, CStep.dup2Log env.logFile 1,
                            CStep.dup2Log env.logFile 2,
                            CStep.execveStep env.pathname] }

/-- The full child step sequence when every call succeeds. -/
def childFullSteps (env : ChildEnv) : List CStep :=
  [CStep.closePipeReadEnd,
   CStep.openPath "/proc/self/setgroups",
   CStep.writeData "/proc/self/setgroups" "deny\n",
   CStep.closePath "/proc/self/setgroups",
   CStep.openPath "/proc/self/uid_map",
   CStep.writeData "/proc/self/uid_map" (uidMapString env.uid),
   CStep.closePath "/proc/self/uid_map",
   CStep.openPath "/proc/self/gid_map",
   CStep.writeData "/proc/self/gid_map" (gidMapString env.gid),
   CStep.closePath "/proc/self/gid_map",
   CStep.closeStdin,
   CStep.dup2Log env.logFile 1,
   CStep.dup2Log env.logFile 2,
   CStep.execveStep env.pathname]

/-- The first error-checked call that fails in the child branch, paired
with the errno it returned and the tag `send_error` is invoked with at
that site, following the child's program order: the `open` then `write`
of `/proc/self/setgroups`, of `/proc/self/uid_map` and of
`/proc/self/gid_map`, then `dup2(log_file, 1)`, then `dup2(log_file, 2)`,
then `execve`.  `none` means every checked call succeeded and `execve`
took over the image. -/
def firstFailure (env : ChildEnv) : Option (Int × String) :=
  match env.setgroupsOpenRes with
  | SyscallRes.err e => some (e, "open")
  | SyscallRes.ok _ =>
  match env.setgroupsWriteRes with
  | SyscallRes.err e => some (e, "write")
  | SyscallRes.ok _ =>
  match env.uidMapOpenRes with
  | SyscallRes.err e => some (e, "open")
  | SyscallRes.ok _ =>
  match env.uidMapWriteRes with
  | SyscallRes.err e => some (e, "write")
  | SyscallRes.ok _ =>
  match env.gidMapOpenRes with
  | SyscallRes.err e => some (e, "open")
  | SyscallRes.ok _ =>
  match env.gidMapWriteRes with
  | SyscallRes.err e => some (e, "write")
  | SyscallRes.ok _ =>
  match env.dup2StdoutRes with
  | SyscallRes.err e => some (e, "dup2")
  | SyscallRes.ok _ =>
  match env.dup2StderrRes with
  | SyscallRes.err e => some (e, "dup2")
  | SyscallRes.ok _ =>
  match env.execveRes with
  | some e => some (e, "execve")
  | none => none

/-- Oracle for the three fallible V8 stages inside
`SekkaBackend::run_js`: whether `v8::String::NewFromUtf8(...).ToLocal`
produced a string, whether `v8::Script::Compile(...).ToLocal` produced a
script, and the evaluation result (`some v` when `Run(...).ToLocal`
produced a value, `none` when it was empty, e.g. because the script
threw). -/
structure JsEnv where
  utf8Ok : Bool
  compileOk : Bool
  runResult : Option Int
deriving DecidableEq

/-- Shallow embedding of `SekkaBackend::run_js`: return `false` at the
first stage whose `MaybeLocal` is empty, and `true` otherwise, discarding
the evaluation's result value. -/
def run_js (env : JsEnv) : Bool :=
  if env.utf8Ok = false then false
  else if env.compileOk = false then false
  else
    match env.runResult with
    | none => false
    | some _ => true

/-- The `sekka_backend_run_js` C wrapper.  It forwards to
`SekkaBackend::run_js`; its `try`/`catch` turns a thrown C++ exception
into `false`, but V8 reports all scripting failures through the empty
`MaybeLocal` values already modelled in `JsEnv`. -/
def sekka_backend_run_js (env : JsEnv) : Bool := run_js env

/-- Concrete run with `clone3` succeeded and `read` failing. -/
def envReadFail : ParentEnv := ⟨some (3, 4), some (100, 5), -1, 0, 0, 0⟩

/-- Concrete run reaching `ChildTerminated`. -/
def envSuccess : ParentEnv := ⟨some (3, 4), some (100, 5), 0, 1, 100, 77⟩

/-- Concrete run in which the child sent a 10-byte pre-exec payload. -/
def envPreExec : ParentEnv := ⟨some (3, 4), some (100, 5), 10, 0, 0, 0⟩

/-- Concrete run in which `pipe2` fails. -/
def envPipeFail : ParentEnv := ⟨none, none, 0, 0, 0, 0⟩

/-- Concrete run in which `pipe2` succeeds and `clone3` fails. -/
def envCloneFail : ParentEnv := ⟨some (3, 4), none, 0, 0, 0, 0⟩

/-- Concrete child run in which every call succeeds and `execve` takes
over the image. -/
def envChildOk : ChildEnv :=
  { uid := 1000, gid := 100, logFile := 7, pathname := "/bin/true",
    closeReadRes := SyscallRes.ok 0,
    setgroupsOpenRes := SyscallRes.ok 3,
    setgroupsWriteRes := SyscallRes.ok 5,
    setgroupsCloseRes := SyscallRes.ok 0,
    uidMapOpenRes := SyscallRes.ok 3,
    uidMapWriteRes := SyscallRes.ok 8,
    uidMapCloseRes := SyscallRes.ok 0,
    gidMapOpenRes := SyscallRes.ok 3,
    gidMapWriteRes := SyscallRes.ok 8,
    gidMapCloseRes := SyscallRes.ok 0,
    closeStdinRes := SyscallRes.ok 0,
    dup2StdoutRes := SyscallRes.ok 1,
    dup2StderrRes := SyscallRes.ok 2,
    execveRes := none }

/-- Concrete child run in which `execve` fails with `ENOENT` (errno 2). -/
def envChildEnoent : ChildEnv :=
  { envChildOk with pathname := "/nonexistent/binary", execveRes := some 2 }

/-- Concrete child run in which `close(0)` fails with `EBADF` (errno 9)
and everything else succeeds. -/
def envChildCloseFail : ChildEnv :=
  { envChildOk with closeStdinRes := SyscallRes.err 9 }

/-- Concrete child run in which the `open` of `/proc/self/setgroups`
fails with `EACCES` (errno 13). -/
def envChildOpenFail : ChildEnv :=
  { envChildOk with setgroupsOpenRes := SyscallRes.err 13 }


example :
    runCommandGist
      { pipe2Res := some (3, 4), clone3Res := some (100, 5),
        readRes := 0, ppollRes := 1, waitpidRet := 100,
        waitpidStatusWord := 0 } 7 =
    { status := Status.childTerminated, wstatus := 0,
      events := [Ev.close 4, Ev.readE 3 0, Ev.close 3, Ev.ppollE 5 1,
                 Ev.waitStatus 100 100, Ev.close 5] } := by
  decide

example :
    (childRun
      { uid := 1000, gid := 100, logFile := 7, pathname := "/bin/true",
        closeReadRes := SyscallRes.ok 0,
        setgroupsOpenRes := SyscallRes.ok 3,
        setgroupsWriteRes := SyscallRes.ok 5,
        setgroupsCloseRes := SyscallRes.ok 0,
        uidMapOpenRes := SyscallRes.ok 3,
        uidMapWriteRes := SyscallRes.ok 8,
        uidMapCloseRes := SyscallRes.ok 0,
        gidMapOpenRes := SyscallRes.ok 3,
        gidMapWriteRes := SyscallRes.ok 8,
        gidMapCloseRes := SyscallRes.ok 0,
        closeStdinRes := SyscallRes.ok 0,
        dup2StdoutRes := SyscallRes.ok 1,
        dup2StderrRes := SyscallRes.ok 2,
        execveRes := some 2 }).payload =
    [2, 0, 0, 0, 101, 120, 101, 99, 118, 101] := by
  decide

/-- Helper: whenever `pipe2` and `clone3` both succeeded, the parent's
event trace starts with the `pipefd[1]` close followed by the pipe read,
and on the `nread == 0` path the read-end close comes immediately after. -/
theorem runCommandGist_events_shape
    (env : ParentEnv) (w0 rfd wfd pid pidfd : Int)
    (hp : env.pipe2Res = some (rfd, wfd))
    (hc : env.clone3Res = some (pid, pidfd)) :
    ∃ rest, (runCommandGist env w0).events =
        Ev.close wfd :: Ev.readE rfd env.readRes :: rest ∧
      (env.readRes = 0 → ∃ rest2, rest = Ev.close rfd :: rest2) := by
  simp only [runCommandGist, hp, hc]
  split_ifs with h1 h2 h3 h4 h5
  · exact ⟨_, rfl, fun h0 => by exfalso; omega⟩
  · exact ⟨_, rfl, fun h0 => absurd h0 h2⟩
  · exact ⟨_, rfl, fun _ => ⟨_, rfl⟩⟩
  · exact ⟨_, rfl, fun _ => ⟨_, rfl⟩⟩
  · exact ⟨_, rfl, fun _ => ⟨_, rfl⟩⟩
  · exact ⟨_, rfl, fun _ => ⟨_, rfl⟩⟩

/-- C1: for every invocation in which `clone3` succeeds, on every return
with a failure status after that point (`FailureRead`, `FailurePreExecve`,
`FailurePoll`, `FailureTimeout`, `FailureWait`), the parent sends SIGKILL
to the child and then calls `waitpid` on it before `run_command` returns. -/
theorem c1_child_guard_kill_then_reap
    (env : ParentEnv) (w0 rfd wfd pid pidfd : Int)
    (hp : env.pipe2Res = some (rfd, wfd))
    (hc : env.clone3Res = some (pid, pidfd))
    (hf : (runCommandGist env w0).status = Status.failureRead ∨
          (runCommandGist env w0).status = Status.failurePreExecve ∨
          (runCommandGist env w0).status = Status.failurePpoll ∨
          (runCommandGist env w0).status = Status.failureTimeout ∨
          (runCommandGist env w0).status = Status.failureWaitpid) :
    ∃ s t, s ++ [Ev.kill pid, Ev.waitGuard pid] ++ t =
      (runCommandGist env w0).events := by
  simp only [runCommandGist, hp, hc] at hf ⊢
  split_ifs at hf ⊢ with h1 h2 h3 h4 h5
  · exact ⟨[Ev.close wfd, Ev.readE rfd env.readRes],
           [Ev.close pidfd, Ev.close rfd], rfl⟩
  · exact ⟨[Ev.close wfd, Ev.readE rfd env.readRes],
           [Ev.close pidfd, Ev.close rfd], rfl⟩
  · exact ⟨[Ev.close wfd, Ev.readE rfd env.readRes, Ev.close rfd,
            Ev.ppollE pidfd env.ppollRes], [Ev.close pidfd], rfl⟩
  · exact ⟨[Ev.close wfd, Ev.readE rfd env.readRes, Ev.close rfd,
            Ev.ppollE pidfd env.ppollRes], [Ev.close pidfd], rfl⟩
  · simp at hf
  · exact ⟨[Ev.close wfd, Ev.readE rfd env.readRes, Ev.close rfd,
            Ev.ppollE pidfd env.ppollRes, Ev.waitStatus pid env.waitpidRet],
           [Ev.close pidfd], rfl⟩

/-- Witness for C1 at a concrete failing run. -/
theorem c1_witness :
    ∃ s t, s ++ [Ev.kill 100, Ev.waitGuard 100] ++ t =
      (runCommandGist envReadFail 0).events :=
  c1_child_guard_kill_then_reap envReadFail 0 3 4 100 5 rfl rfl
    (Or.inl (by decide))

/-- C2: on every return path, each file descriptor the function itself
opened (the two pipe ends and, when `clone3` succeeded, the pidfd) is
closed exactly once. -/
theorem c2_fd_closed_exactly_once
    (env : ParentEnv) (w0 rfd wfd : Int)
    (hp : env.pipe2Res = some (rfd, wfd)) (hne : rfd ≠ wfd) :
    (env.clone3Res = none →
       countEv (Ev.close rfd) (runCommandGist env w0).events = 1 ∧
       countEv (Ev.close wfd) (runCommandGist env w0).events = 1) ∧
    (∀ pid pidfd : Int, env.clone3Res = some (pid, pidfd) →
       pidfd ≠ rfd → pidfd ≠ wfd →
       countEv (Ev.close rfd) (runCommandGist env w0).events = 1 ∧
       countEv (Ev.close wfd) (runCommandGist env w0).events = 1 ∧
       countEv (Ev.close pidfd) (runCommandGist env w0).events = 1) := by
  constructor
  · intro hc
    simp [runCommandGist, hp, hc, countEv, hne, Ne.symm hne]
  · intro pid pidfd hc hpr hpw
    simp only [runCommandGist, hp, hc]
    split_ifs with h1 h2 h3 h4 h5 <;>
      simp [countEv, hne, Ne.symm hne, hpr, Ne.symm hpr, hpw, Ne.symm hpw]

/-- Witness for C2 at a concrete successful run. -/
theorem c2_witness :
    countEv (Ev.close 3) (runCommandGist envSuccess 0).events = 1 ∧
    countEv (Ev.close 4) (runCommandGist envSuccess 0).events = 1 ∧
    countEv (Ev.close 5) (runCommandGist envSuccess 0).events = 1 := by
  have h := (c2_fd_closed_exactly_once envSuccess 0 3 4 rfl (by decide)).2
    100 5 rfl (by decide) (by decide)
  exact ⟨h.1, h.2.1, h.2.2⟩

/-- C3: whenever the parent's single pipe read returns a count greater
than zero, `run_command` returns `FailurePreExecve` and surfaces the byte
count as `error_bytes_written`. -/
theorem c3_pre_execve_byte_count
    (env : ParentEnv) (w0 rfd wfd pid pidfd : Int)
    (hp : env.pipe2Res = some (rfd, wfd))
    (hc : env.clone3Res = some (pid, pidfd))
    (hr : 0 < env.readRes) :
    (perform_run_command env w0).kind = Status.failurePreExecve ∧
    (perform_run_command env w0).errorBytesWritten = env.readRes := by
  have h1 : env.readRes ≠ -1 := by omega
  have h2 : env.readRes ≠ 0 := by omega
  simp [perform_run_command, runCommandGist, hp, hc, h1, h2]

/-- Witness for C3 at a concrete pre-execve failure. -/
theorem c3_witness :
    (perform_run_command envPreExec 0).kind = Status.failurePreExecve ∧
    (perform_run_command envPreExec 0).errorBytesWritten = 10 :=
  c3_pre_execve_byte_count envPreExec 0 3 4 100 5 rfl rfl (by decide)

/-- C6: after a handshake in which `read` returned 0, `ppoll` returning -1
yields `FailurePoll`, 0 yields `FailureTimeout`, and at least 1 leads to
`waitpid`: returning the child's pid yields `ChildTerminated` with the
wait-status word stored in the caller's `wstatus`, anything else yields
`FailureWait`. -/
theorem c6_ppoll_waitpid_outcomes
    (env : ParentEnv) (w0 rfd wfd pid pidfd : Int)
    (hp : env.pipe2Res = some (rfd, wfd))
    (hc : env.clone3Res = some (pid, pidfd))
    (hr : env.readRes = 0) :
    (env.ppollRes = -1 →
       (runCommandGist env w0).status = Status.failurePpoll) ∧
    (env.ppollRes = 0 →
       (runCommandGist env w0).status = Status.failureTimeout) ∧
    (1 ≤ env.ppollRes →
       (env.waitpidRet = pid →
          (runCommandGist env w0).status = Status.childTerminated ∧
          (runCommandGist env w0).wstatus = env.waitpidStatusWord) ∧
       (env.waitpidRet ≠ pid →
          (runCommandGist env w0).status = Status.failureWaitpid)) := by
  refine ⟨?_, ?_, ?_⟩
  · intro h
    simp [runCommandGist, hp, hc, hr, h]
  · intro h
    simp [runCommandGist, hp, hc, hr, h]
  · intro h3
    have hA : env.ppollRes ≠ -1 := by omega
    have hB : env.ppollRes ≠ 0 := by omega
    refine ⟨fun hw => ?_, fun hw => ?_⟩
    · simp [runCommandGist, hp, hc, hr, hA, hB, hw]
    · simp [runCommandGist, hp, hc, hr, hA, hB, hw]

/-- Witness for C6 at a concrete terminating run. -/
theorem c6_witness :
    (runCommandGist envSuccess 7).status = Status.childTerminated ∧
    (runCommandGist envSuccess 7).wstatus = 77 :=
  ((c6_ppoll_waitpid_outcomes envSuccess 7 3 4 100 5 rfl rfl rfl).2.2
    (by decide)).1 rfl

/-- C7: whenever the handshake is reached, the write end is closed before
the read call, every close of the read end comes after the read has
returned (on the success path immediately after it), and the pipe read
happens before any `ppoll` on the pidfd. -/
theorem c7_pipe_then_poll_order
    (env : ParentEnv) (w0 rfd wfd pid pidfd : Int)
    (hp : env.pipe2Res = some (rfd, wfd))
    (hc : env.clone3Res = some (pid, pidfd))
    (hne : rfd ≠ wfd) :
    (runCommandGist env w0).events.get? 0 = some (Ev.close wfd) ∧
    (runCommandGist env w0).events.get? 1 =
      some (Ev.readE rfd env.readRes) ∧
    (∀ k, (runCommandGist env w0).events.get? k = some (Ev.close rfd) →
       1 < k) ∧
    (∀ k f r, (runCommandGist env w0).events.get? k =
       some (Ev.ppollE f r) → 1 < k) ∧
    (env.readRes = 0 →
       (runCommandGist env w0).events.get? 2 = some (Ev.close rfd)) := by
  obtain ⟨rest, hev, hrest⟩ :=
    runCommandGist_events_shape env w0 rfd wfd pid pidfd hp hc
  rw [hev]
  refine ⟨rfl, rfl, ?_, ?_, ?_⟩
  · intro k hk
    rcases k with _ | _ | k
    · simp at hk
      exact absurd hk (Ne.symm hne)
    · simp at hk
    · omega
  · intro k f r hk
    rcases k with _ | _ | k
    · simp at hk
    · simp at hk
    · omega
  · intro h0
    obtain ⟨rest2, hr2⟩ := hrest h0
    rw [hr2]
    rfl

/-- Witness for C7 at a concrete successful run. -/
theorem c7_witness :
    (runCommandGist envSuccess 0).events.get? 0 = some (Ev.close 4) ∧
    (runCommandGist envSuccess 0).events.get? 1 = some (Ev.readE 3 0) ∧
    (∀ k, (runCommandGist envSuccess 0).events.get? k =
       some (Ev.close 3) → 1 < k) ∧
    (∀ k f r, (runCommandGist envSuccess 0).events.get? k =
       some (Ev.ppollE f r) → 1 < k) ∧
    ((0 : Int) = 0 →
       (runCommandGist envSuccess 0).events.get? 2 = some (Ev.close 3)) :=
  c7_pipe_then_poll_order envSuccess 0 3 4 100 5 rfl rfl (by decide)

/-- C8: if `pipe2` fails, the function returns `FailurePipeCreate` with an
empty effect trace (nothing launched, nothing to clean up); if `pipe2`
succeeds but `clone3` fails, it closes both pipe ends and returns
`FailureClone`. -/
theorem c8_early_failure_paths (env : ParentEnv) (w0 : Int) :
    (env.pipe2Res = none →
       runCommandGist env w0 =
         { status := Status.failurePipe2, wstatus := w0, events := [] }) ∧
    (∀ rfd wfd : Int, env.pipe2Res = some (rfd, wfd) →
       env.clone3Res = none →
       runCommandGist env w0 =
         { status := Status.failureClone3, wstatus := w0,
           events := [Ev.close wfd, Ev.close rfd] }) := by
  constructor
  · intro hp
    simp [runCommandGist, hp]
  · intro rfd wfd hp hc
    simp [runCommandGist, hp, hc]

/-- Witness for C8 at both concrete early-failure runs. -/
theorem c8_witness :
    runCommandGist envPipeFail 5 =
      { status := Status.failurePipe2, wstatus := 5, events := [] } ∧
    runCommandGist envCloneFail 5 =
      { status := Status.failureClone3, wstatus := 5,
        events := [Ev.close 4, Ev.close 3] } :=
  ⟨(c8_early_failure_paths envPipeFail 5).1 rfl,
   (c8_early_failure_paths envCloneFail 5).2 3 4 rfl rfl⟩

/-- C10: on every return path that ends before the final
`waitpid(pid, &wstatus, 0)` call (`FailurePipeCreate`, `FailureClone`,
`FailureRead`, `FailurePreExecve`, `FailurePoll`, `FailureTimeout`), the
caller's `wstatus` variable is left unchanged. -/
theorem c10_wstatus_unchanged
    (env : ParentEnv) (w0 : Int)
    (h : (runCommandGist env w0).status = Status.failurePipe2 ∨
         (runCommandGist env w0).status = Status.failureClone3 ∨
         (runCommandGist env w0).status = Status.failureRead ∨
         (runCommandGist env w0).status = Status.failurePreExecve ∨
         (runCommandGist env w0).status = Status.failurePpoll ∨
         (runCommandGist env w0).status = Status.failureTimeout) :
    (runCommandGist env w0).wstatus = w0 := by
  rcases henv : env.pipe2Res with _ | ⟨rfd, wfd⟩
  · simp [runCommandGist, henv]
  · rcases henv2 : env.clone3Res with _ | ⟨pid, pidfd⟩
    · simp [runCommandGist, henv, henv2]
    · simp only [runCommandGist, henv, henv2] at h ⊢
      split_ifs at h ⊢ with h1 h2 h3 h4 h5
      all_goals first | rfl | simp at h

/-- Witness for C10 at a concrete `pipe2` failure. -/
theorem c10_witness : (runCommandGist envPipeFail 42).wstatus = 42 :=
  c10_wstatus_unchanged envPipeFail 42 (Or.inl (by decide))

/-- C4 counterexample: a run in which the step "close fd 0" fails
(`close(0)` returns -1 with `errno = EBADF`) while every other call
succeeds.  The child still executes the remaining steps and reaches
`execve` without serializing any payload, refuting the claim's "if any
step fails, the child serializes the errno-plus-tag payload and calls
`_exit(1)` without executing the remaining steps": the source checks the
results of `open`, `write`, `dup2` and `execve`, but discards those of
`close`. -/
theorem c4_close_failure_ignored_counterexample :
    envChildCloseFail.closeStdinRes = SyscallRes.err 9 ∧
    (childRun envChildCloseFail).exit = ChildExit.execed ∧
    (childRun envChildCloseFail).payload = [] :=
  ⟨rfl, rfl, rfl⟩

/-- C4 (amended): the child executes close-read-end, the `"deny\n"` write
to `/proc/self/setgroups`, the `uid_map` write, the `gid_map` write,
`close(0)`, `dup2(log_file, 1)`, `dup2(log_file, 2)` and `execve` in
exactly this order, and if any of the error-checked calls (each `open`,
each map-file `write`, either `dup2`, or `execve`) fails, the child
serializes the errno-plus-tag payload onto the pipe's write end and calls
`_exit(1)` without executing the remaining steps; failures of the `close`
calls are ignored and execution continues. -/
theorem c4_child_step_order_amended (env : ChildEnv) :
    (∀ e, env.setgroupsOpenRes = SyscallRes.err e →
       childRun env =
         { exit := ChildExit.exited 1,
           payload := int32LeBytes e ++ asciiBytes "open",
           steps := [CStep.closePipeReadEnd,
                     CStep.openPath "/proc/self/setgroups",
                     CStep.sendErr "open"] }) ∧
    (env.setgroupsOpenRes.isOk = true →
       ∀ e, env.setgroupsWriteRes = SyscallRes.err e →
       childRun env =
         { exit := ChildExit.exited 1,
           payload := int32LeBytes e ++ asciiBytes "write",
           steps := [CStep.closePipeReadEnd,
                     CStep.openPath "/proc/self/setgroups",
                     CStep.writeData "/proc/self/setgroups" "deny\n",
                     CStep.sendErr "write"] }) ∧
    (env.setgroupsOpenRes.isOk = true → env.setgroupsWriteRes.isOk = true →
       ∀ e, env.uidMapOpenRes = SyscallRes.err e →
       childRun env =
         { exit := ChildExit.exited 1,
           payload := int32LeBytes e ++ asciiBytes "open",
           steps := [CStep.closePipeReadEnd,
                     CStep.openPath "/proc/self/setgroups",
                     CStep.writeData "/proc/self/setgroups" "deny\n",
                     CStep.closePath "/proc/self/setgroups",
                     CStep.openPath "/proc/self/uid_map",
                     CStep.sendErr "open"] }) ∧
    (env.setgroupsOpenRes.isOk = true → env.setgroupsWriteRes.isOk = true →
       env.uidMapOpenRes.isOk = true →
       ∀ e, env.uidMapWriteRes = SyscallRes.err e →
       childRun env =
         { exit := ChildExit.exited 1,
           payload := int32LeBytes e ++ asciiBytes "write",
           steps := [CStep.closePipeReadEnd,
                     CStep.openPath "/proc/self/setgroups",
                     CStep.writeData "/proc/self/setgroups" "deny\n",
                     CStep.closePath "/proc/self/setgroups",
                     CStep.openPath "/proc/self/uid_map",
                     CStep.writeData "/proc/self/uid_map"
                       (uidMapString env.uid),
                     CStep.sendErr "write"] }) ∧
    (env.setgroupsOpenRes.isOk = true → env.setgroupsWriteRes.isOk = true →
       env.uidMapOpenRes.isOk = true → env.uidMapWriteRes.isOk = true →
       ∀ e, env.gidMapOpenRes = SyscallRes.err e →
       childRun env =
         { exit := ChildExit.exited 1,
           payload := int32LeBytes e ++ asciiBytes "open",
           steps := [CStep.closePipeReadEnd,
                     CStep.openPath "/proc/self/setgroups",
                     CStep.writeData "/proc/self/setgroups" "deny\n",
                     CStep.closePath "/proc/self/setgroups",
                     CStep.openPath "/proc/self/uid_map",
                     CStep.writeData "/proc/self/uid_map"
                       (uidMapString env.uid),
                     CStep.closePath "/proc/self/uid_map",
                     CStep.openPath "/proc/self/gid_map",
                     CStep.sendErr "open"] }) ∧
    (env.setgroupsOpenRes.isOk = true → env.setgroupsWriteRes.isOk = true →
       env.uidMapOpenRes.isOk = true → env.uidMapWriteRes.isOk = true →
       env.gidMapOpenRes.isOk = true →
       ∀ e, env.gidMapWriteRes = SyscallRes.err e →
       childRun env =
         { exit := ChildExit.exited 1,
           payload := int32LeBytes e ++ asciiBytes "write",
           steps := [CStep.closePipeReadEnd,
                     CStep.openPath "/proc/self/setgroups",
                     CStep.writeData "/proc/self/setgroups" "deny\n",
                     CStep.closePath "/proc/self/setgroups",
                     CStep.openPath "/proc/self/uid_map",
                     CStep.writeData "/proc/self/uid_map"
                       (uidMapString env.uid),
                     CStep.closePath "/proc/self/uid_map",
                     CStep.openPath "/proc/self/gid_map",
                     CStep.writeData "/proc/self/gid_map"
                       (gidMapString env.gid),
                     CStep.sendErr "write"] }) ∧
    (env.setgroupsOpenRes.isOk = true → env.setgroupsWriteRes.isOk = true →
       env.uidMapOpenRes.isOk = true → env.uidMapWriteRes.isOk = true →
       env.gidMapOpenRes.isOk = true → env.gidMapWriteRes.isOk = true →
       ∀ e, env.dup2StdoutRes = SyscallRes.err e →
       childRun env =
         { exit := ChildExit.exited 1,
           payload := int32LeBytes e ++ asciiBytes "dup2",
           steps := [CStep.closePipeReadEnd,
                     CStep.openPath "/proc/self/setgroups",
                     CStep.writeData "/proc/self/setgroups" "deny\n",
                     CStep.closePath "/proc/self/setgroups",
                     CStep.openPath "/proc/self/uid_map",
                     CStep.writeData "/proc/self/uid_map"
                       (uidMapString env.uid),
                     CStep.closePath "/proc/self/uid_map",
                     CStep.openPath "/proc/self/gid_map",
                     CStep.writeData "/proc/self/gid_map"
                       (gidMapString env.gid),
                     CStep.closePath "/proc/self/gid_map",
                     CStep.closeStdin,
                     CStep.dup2Log env.logFile 1,
                     CStep.sendErr "dup2"] }) ∧
    (env.setgroupsOpenRes.isOk = true → env.setgroupsWriteRes.isOk = true →
       env.uidMapOpenRes.isOk = true → env.uidMapWriteRes.isOk = true →
       env.gidMapOpenRes.isOk = true → env.gidMapWriteRes.isOk = true →
       env.dup2StdoutRes.isOk = true →
       ∀ e, env.dup2StderrRes = SyscallRes.err e →
       childRun env =
         { exit := ChildExit.exited 1,
           payload := int32LeBytes e ++ asciiBytes "dup2",
           steps := [CStep.closePipeReadEnd,
                     CStep.openPath "/proc/self/setgroups",
                     CStep.writeData "/proc/self/setgroups" "deny\n",
                     CStep.closePath "/proc/self/setgroups",
                     CStep.openPath "/proc/self/uid_map",
                     CStep.writeData "/proc/self/uid_map"
                       (uidMapString env.uid),
                     CStep.closePath "/proc/self/uid_map",
                     CStep.openPath "/proc/self/gid_map",
                     CStep.writeData "/proc/self/gid_map"
                       (gidMapString env.gid),
                     CStep.closePath "/proc/self/gid_map",
                     CStep.closeStdin,
                     CStep.dup2Log env.logFile 1,
                     CStep.dup2Log env.logFile 2,
                     CStep.sendErr "dup2"] }) ∧
    (env.setgroupsOpenRes.isOk = true → env.setgroupsWriteRes.isOk = true →
       env.uidMapOpenRes.isOk = true → env.uidMapWriteRes.isOk = true →
       env.gidMapOpenRes.isOk = true → env.gidMapWriteRes.isOk = true →
       env.dup2StdoutRes.isOk = true → env.dup2StderrRes.isOk = true →
       ∀ e, env.execveRes = some e →
       childRun env =
         { exit := ChildExit.exited 1,
           payload := int32LeBytes e ++ asciiBytes "execve",
           steps := childFullSteps env ++ [CStep.sendErr "execve"] }) ∧
    (env.setgroupsOpenRes.isOk = true → env.setgroupsWriteRes.isOk = true →
       env.uidMapOpenRes.isOk = true → env.uidMapWriteRes.isOk = true →
       env.gidMapOpenRes.isOk = true → env.gidMapWriteRes.isOk = true →
       env.dup2StdoutRes.isOk = true → env.dup2StderrRes.isOk = true →
       env.execveRes = none →
       childRun env =
         { exit := ChildExit.execed, payload := [],
           steps := childFullSteps env }) := by
  rcases env with
    ⟨uid, gid, lf, pn, crr, so, sw, scr, uo, uw, ucr, go, gw, gcr, csr,
     d1, d2, ex⟩
  cases so with
  | err e0 =>
    simp [childRun, write_file, sendError, SyscallRes.isOk, childFullSteps]
  | ok r0 =>
  cases sw with
  | err e0 =>
    simp [childRun, write_file, sendError, SyscallRes.isOk, childFullSteps]
  | ok r1 =>
  cases uo with
  | err e0 =>
    simp [childRun, write_file, sendError, SyscallRes.isOk, childFullSteps]
  | ok r2 =>
  cases uw with
  | err e0 =>
    simp [childRun, write_file, sendError, SyscallRes.isOk, childFullSteps]
  | ok r3 =>
  cases go with
  | err e0 =>
    simp [childRun, write_file, sendError, SyscallRes.isOk, childFullSteps]
  | ok r4 =>
  cases gw with
  | err e0 =>
    simp [childRun, write_file, sendError, SyscallRes.isOk, childFullSteps]
  | ok r5 =>
  cases d1 with
  | err e0 =>
    simp [childRun, write_file, sendError, SyscallRes.isOk, childFullSteps]
  | ok r6 =>
  cases d2 with
  | err e0 =>
    simp [childRun, write_file, sendError, SyscallRes.isOk, childFullSteps]
  | ok r7 =>
  cases ex with
  | some e0 =>
    simp [childRun, write_file, sendError, SyscallRes.isOk, childFullSteps]
  | none =>
    simp [childRun, write_file, sendError, SyscallRes.isOk, childFullSteps]

/-- Witness for C4 at an all-success run and at an `execve` failure. -/
theorem c4_witness :
    childRun envChildOk =
      { exit := ChildExit.execed, payload := [],
        steps := childFullSteps envChildOk } ∧
    childRun envChildEnoent =
      { exit := ChildExit.exited 1,
        payload := int32LeBytes 2 ++ asciiBytes "execve",
        steps := childFullSteps envChildEnoent ++ [CStep.sendErr "execve"] } :=
  ⟨(c4_child_step_order_amended envChildOk).2.2.2.2.2.2.2.2.2
     rfl rfl rfl rfl rfl rfl rfl rfl rfl,
   (c4_child_step_order_amended envChildEnoent).2.2.2.2.2.2.2.2.1
     rfl rfl rfl rfl rfl rfl rfl rfl 2 rfl⟩

/-- Helper: decoding the four little-endian bytes of an errno value in the
signed 32-bit range recovers the value. -/
theorem decode_int32LeBytes (e : Int) (h0 : 0 ≤ e) (h1 : e < 2147483648) :
    decodeLeInt32 (int32LeBytes e) = e := by
  have he : e % 4294967296 = e := by omega
  simp only [int32LeBytes, decodeLeInt32, he]
  split_ifs with h <;> omega

/-- Helper: when every call up to `execve` succeeds and `execve` fails
with errno `e`, the child exits 1 having sent the errno bytes followed by
the `"execve"` tag. -/
theorem childRun_execve_err (env : ChildEnv) (e : Int)
    (h1 : env.setgroupsOpenRes.isOk = true)
    (h2 : env.setgroupsWriteRes.isOk = true)
    (h3 : env.uidMapOpenRes.isOk = true)
    (h4 : env.uidMapWriteRes.isOk = true)
    (h5 : env.gidMapOpenRes.isOk = true)
    (h6 : env.gidMapWriteRes.isOk = true)
    (h7 : env.dup2StdoutRes.isOk = true)
    (h8 : env.dup2StderrRes.isOk = true)
    (hex : env.execveRes = some e) :
    childRun env =
      { exit := ChildExit.exited 1,
        payload := int32LeBytes e ++ asciiBytes "execve",
        steps := childFullSteps env ++ [CStep.sendErr "execve"] } := by
  rcases env with
    ⟨uid, gid, lf, pn, crr, so, sw, scr, uo, uw, ucr, go, gw, gcr, csr,
     d1, d2, ex⟩
  cases so <;> cases sw <;> cases uo <;> cases uw <;> cases go <;>
    cases gw <;> cases d1 <;> cases d2 <;>
    simp_all [childRun, write_file, sendError, SyscallRes.isOk,
      childFullSteps]

/-- C5: whenever the child reports a pre-exec failure, the payload is the
errno returned by the failing call (the first error-checked call that
fails, in the child's program order) serialized as a little-endian signed
32-bit integer in bytes 0..3, followed by the ASCII tag of that failing
call's site with no trailing NUL; every failing run has such a failing
call; and in particular, when `execve` fails with `ENOENT`, bytes 0..3
decode to `ENOENT`, the remaining bytes equal `"execve"`, and the parent,
reading that payload, returns `FailurePreExecve`. -/
theorem c5_payload_errno_then_tag :
    (∀ (env : ChildEnv) (e : Int) (tag : String),
       firstFailure env = some (e, tag) →
       (tag = "open" ∨ tag = "write" ∨ tag = "dup2" ∨ tag = "execve") ∧
       (childRun env).exit = ChildExit.exited 1 ∧
       (childRun env).payload = int32LeBytes e ++ asciiBytes tag ∧
       (childRun env).payload.take 4 = int32LeBytes e ∧
       (childRun env).payload.drop 4 = asciiBytes tag) ∧
    (∀ env : ChildEnv, (childRun env).exit = ChildExit.exited 1 →
       ∃ e tag, firstFailure env = some (e, tag)) ∧
    (∀ (env : ChildEnv) (e : Int),
       env.setgroupsOpenRes.isOk = true →
       env.setgroupsWriteRes.isOk = true →
       env.uidMapOpenRes.isOk = true → env.uidMapWriteRes.isOk = true →
       env.gidMapOpenRes.isOk = true → env.gidMapWriteRes.isOk = true →
       env.dup2StdoutRes.isOk = true → env.dup2StderrRes.isOk = true →
       env.execveRes = some e → 0 ≤ e → e < 2147483648 →
       (childRun env).exit = ChildExit.exited 1 ∧
       (childRun env).payload.take 4 = int32LeBytes e ∧
       (childRun env).payload.drop 4 = asciiBytes "execve" ∧
       decodeLeInt32 ((childRun env).payload.take 4) = e ∧
       (∀ (penv : ParentEnv) (w0 rfd wfd pid pidfd : Int),
          penv.pipe2Res = some (rfd, wfd) →
          penv.clone3Res = some (pid, pidfd) →
          penv.readRes = ((childRun env).payload.length : Int) →
          (runCommandGist penv w0).status = Status.failurePreExecve)) := by
  refine ⟨?_, ?_, ?_⟩
  · intro env e tag h
    rcases env with
      ⟨uid, gid, lf, pn, crr, so, sw, scr, uo, uw, ucr, go, gw, gcr, csr,
       d1, d2, ex⟩
    cases so with
    | err e0 =>
      simp only [firstFailure, Option.some.injEq, Prod.mk.injEq] at h
      obtain ⟨he, ht⟩ := h
      subst he
      subst ht
      exact ⟨Or.inl rfl, rfl, rfl, rfl, rfl⟩
    | ok r0 =>
    cases sw with
    | err e0 =>
      simp only [firstFailure, Option.some.injEq, Prod.mk.injEq] at h
      obtain ⟨he, ht⟩ := h
      subst he
      subst ht
      exact ⟨Or.inr (Or.inl rfl), rfl, rfl, rfl, rfl⟩
    | ok r1 =>
    cases uo with
    | err e0 =>
      simp only [firstFailure, Option.some.injEq, Prod.mk.injEq] at h
      obtain ⟨he, ht⟩ := h
      subst he
      subst ht
      exact ⟨Or.inl rfl, rfl, rfl, rfl, rfl⟩
    | ok r2 =>
    cases uw with
    | err e0 =>
      simp only [firstFailure, Option.some.injEq, Prod.mk.injEq] at h
      obtain ⟨he, ht⟩ := h
      subst he
      subst ht
      exact ⟨Or.inr (Or.inl rfl), rfl, rfl, rfl, rfl⟩
    | ok r3 =>
    cases go with
    | err e0 =>
      simp only [firstFailure, Option.some.injEq, Prod.mk.injEq] at h
      obtain ⟨he, ht⟩ := h
      subst he
      subst ht
      exact ⟨Or.inl rfl, rfl, rfl, rfl, rfl⟩
    | ok r4 =>
    cases gw with
    | err e0 =>
      simp only [firstFailure, Option.some.injEq, Prod.mk.injEq] at h
      obtain ⟨he, ht⟩ := h
      subst he
      subst ht
      exact ⟨Or.inr (Or.inl rfl), rfl, rfl, rfl, rfl⟩
    | ok r5 =>
    cases d1 with
    | err e0 =>
      simp only [firstFailure, Option.some.injEq, Prod.mk.injEq] at h
      obtain ⟨he, ht⟩ := h
      subst he
      subst ht
      exact ⟨Or.inr (Or.inr (Or.inl rfl)), rfl, rfl, rfl, rfl⟩
    | ok r6 =>
    cases d2 with
    | err e0 =>
      simp only [firstFailure, Option.some.injEq, Prod.mk.injEq] at h
      obtain ⟨he, ht⟩ := h
      subst he
      subst ht
      exact ⟨Or.inr (Or.inr (Or.inl rfl)), rfl, rfl, rfl, rfl⟩
    | ok r7 =>
    cases ex with
    | some e0 =>
      simp only [firstFailure, Option.some.injEq, Prod.mk.injEq] at h
      obtain ⟨he, ht⟩ := h
      subst he
      subst ht
      exact ⟨Or.inr (Or.inr (Or.inr rfl)), rfl, rfl, rfl, rfl⟩
    | none =>
      simp [firstFailure] at h
  · intro env h
    rcases env with
      ⟨uid, gid, lf, pn, crr, so, sw, scr, uo, uw, ucr, go, gw, gcr, csr,
       d1, d2, ex⟩
    cases so with
    | err e0 => exact ⟨e0, "open", rfl⟩
    | ok r0 =>
    cases sw with
    | err e0 => exact ⟨e0, "write", rfl⟩
    | ok r1 =>
    cases uo with
    | err e0 => exact ⟨e0, "open", rfl⟩
    | ok r2 =>
    cases uw with
    | err e0 => exact ⟨e0, "write", rfl⟩
    | ok r3 =>
    cases go with
    | err e0 => exact ⟨e0, "open", rfl⟩
    | ok r4 =>
    cases gw with
    | err e0 => exact ⟨e0, "write", rfl⟩
    | ok r5 =>
    cases d1 with
    | err e0 => exact ⟨e0, "dup2", rfl⟩
    | ok r6 =>
    cases d2 with
    | err e0 => exact ⟨e0, "dup2", rfl⟩
    | ok r7 =>
    cases ex with
    | some e0 => exact ⟨e0, "execve", rfl⟩
    | none => simp [childRun, write_file, sendError] at h
  · intro env e h1 h2 h3 h4 h5 h6 h7 h8 hex hlo hhi
    have hrun := childRun_execve_err env e h1 h2 h3 h4 h5 h6 h7 h8 hex
    rw [hrun]
    have hlen6 : (asciiBytes "execve").length = 6 := rfl
    refine ⟨rfl, rfl, rfl, decode_int32LeBytes e hlo hhi, ?_⟩
    intro penv w0 rfd wfd pid pidfd hp hc hr
    have hlen : (int32LeBytes e ++ asciiBytes "execve").length = 10 := by
      simp [int32LeBytes, hlen6]
    rw [hlen] at hr
    have hA : penv.readRes ≠ -1 := by omega
    have hB : penv.readRes ≠ 0 := by omega
    simp [runCommandGist, hp, hc, hA, hB]

/-- Witness for C5 at a failing `setgroups` `open` (errno `EACCES`, tag
`"open"`) and at the `ENOENT` `execve` scenario of the spec. -/
theorem c5_witness :
    (childRun envChildOpenFail).payload =
      int32LeBytes 13 ++ asciiBytes "open" ∧
    (childRun envChildEnoent).payload.take 4 = int32LeBytes 2 ∧
    (childRun envChildEnoent).payload.drop 4 = asciiBytes "execve" ∧
    decodeLeInt32 ((childRun envChildEnoent).payload.take 4) = 2 ∧
    (runCommandGist envPreExec 0).status = Status.failurePreExecve := by
  have hA := c5_payload_errno_then_tag.1 envChildOpenFail 13 "open" rfl
  have h := c5_payload_errno_then_tag.2.2 envChildEnoent 2
    rfl rfl rfl rfl rfl rfl rfl rfl rfl (by decide) (by decide)
  exact ⟨hA.2.2.1, h.2.1, h.2.2.1, h.2.2.2.1,
    h.2.2.2.2 envPreExec 0 3 4 100 5 rfl rfl (by decide)⟩

/-- C9: `backend_run_js` returns `false` exactly when one of the three
stages fails (wrapping the bytes as a UTF-8 VM string, compiling, or
evaluating, a thrown exception surfacing as a failed evaluation), returns
`true` otherwise, and the evaluation's result value is discarded in every
case. -/
theorem c9_run_js_false_iff_stage_fails (env : JsEnv) :
    (sekka_backend_run_js env = false ↔
       (env.utf8Ok = false ∨ env.compileOk = false ∨
        env.runResult = none)) ∧
    (∀ v w : Int,
       sekka_backend_run_js { env with runResult := some v } =
       sekka_backend_run_js { env with runResult := some w }) := by
  rcases env with ⟨u, c, r⟩
  constructor
  · cases u <;> cases c <;> cases r <;> simp [sekka_backend_run_js, run_js]
  · intro v w
    cases u <;> cases c <;> simp [sekka_backend_run_js, run_js]

/-- Witness for C9 at a concrete successful evaluation. -/
theorem c9_witness :
    (sekka_backend_run_js ⟨true, true, some 0⟩ = false ↔
       ((true : Bool) = false ∨ (true : Bool) = false ∨
        (some 0 : Option Int) = none)) ∧
    (∀ v w : Int,
       sekka_backend_run_js ⟨true, true, some v⟩ =
       sekka_backend_run_js ⟨true, true, some w⟩) :=
  c9_run_js_false_iff_stage_fails ⟨true, true, some 0⟩
